import Mathlib

/-
Verification of the extractive transcript summarizer
(src/dist/.opencode/agent/transcript-summarizer.js).

JavaScript strings are modeled as lists of characters (JStr).  All string
primitives used by the source (split, includes, trim, toLowerCase, endsWith,
join) are given structural-recursive definitions with the exact JavaScript
semantics on such lists, so that every definition evaluates inside the kernel.
JavaScript numbers appearing in the source are small non-negative integers and
exact dyadic ratios; they are modeled with Nat arithmetic (the float ratios
0.2/0.25/0.3/0.4/0.75/0.8 applied to realistic list lengths never round
across an integer boundary, so floor/ceil agree with exact rational
arithmetic).
-/

namespace TS

abbrev JStr := List Char

/-- JavaScript s.startsWith(pat) on character lists. -/
def hasPrefixC : JStr → JStr → Bool
  | _, [] => true
  | [], _ :: _ => false
  | c :: cs, p :: ps => c = p && hasPrefixC cs ps

/-- JavaScript s.includes(pat): pat occurs as a contiguous substring of s. -/
def containsSub : JStr → JStr → Bool
  | s, pat =>
    match s with
    | [] => pat.isEmpty
    | _ :: cs => hasPrefixC s pat || containsSub cs pat

/-- JavaScript s.split(c) for a single-character separator, and, composed with
the length filters of the source, s.split of a character class: splitting on
every separator character.  A run of separators yields empty pieces where the
regex split of the source collapses the run, but every such extra piece is the
empty string and is removed by the length filters applied immediately after
each split, so the retained sentence lists coincide. -/
def splitOnChar (p : Char → Bool) : JStr → List JStr
  | [] => [[]]
  | c :: cs =>
    if p c then [] :: splitOnChar p cs
    else
      match splitOnChar p cs with
      | [] => [[c]]
      | piece :: rest => (c :: piece) :: rest

/-- JavaScript s.trim(). -/
def trimC (s : JStr) : JStr :=
  ((s.dropWhile Char.isWhitespace).reverse.dropWhile Char.isWhitespace).reverse

/-- JavaScript s.toLowerCase() (ASCII, which is all the source compares). -/
def lowerC (s : JStr) : JStr := s.map Char.toLower

/-- JavaScript s.endsWith(pat). -/
def endsWithC (s pat : JStr) : Bool := hasPrefixC s.reverse pat.reverse

/-- keyPointIndicators of transcript-summarizer.js, in source order. -/
def keyPointIndicators : List JStr := [
  "important".data, "key".data, "main".data, "primary".data, "essential".data,
  "crucial".data, "critical".data, "significant".data,
  "fundamental".data, "core".data, "central".data, "major".data, "vital".data,
  "paramount".data,
  "first".data, "second".data, "third".data, "fourth".data, "fifth".data,
  "next".data, "then".data, "after".data, "before".data,
  "finally".data, "lastly".data, "in conclusion".data, "to conclude".data,
  "to summarize".data, "in summary".data,
  "remember".data, "note that".data, "keep in mind".data, "the point is".data,
  "here\x27s the thing".data,
  "what matters".data, "what\x27s important".data, "pay attention".data,
  "focus on".data,
  "let\x27s talk about".data, "we\x27ll cover".data, "we\x27ll discuss".data,
  "we\x27ll explore".data,
  "the goal is".data, "the objective is".data, "the purpose is".data,
  "the aim is".data,
  "you need to".data, "you should".data, "make sure".data, "ensure that".data,
  "don\x27t forget".data
]

/-- Sentence extraction of generateKeyPointsSummary: split on runs of
period, exclamation and question marks, trim, keep lengths strictly between
10 and 200. -/
def filteredSentences (transcript : JStr) : List JStr :=
  ((splitOnChar (fun c => c = '.' || c = '!' || c = '?') transcript).map trimC).filter
    (fun s => 10 < s.length && s.length < 200)

/-- Keyword matching score factor: the number of indicator phrases contained
in the lowercased sentence. -/
def keywordMatches (sentence : JStr) : Nat :=
  (keyPointIndicators.filter (fun ind => containsSub (lowerC sentence) ind)).length

/-- Position bonus of the scoring loop.  The source compares the float
index/total against 0.2, 0.8, 0.4 and 0.6; stated here by cross
multiplication, which is the same comparison in exact arithmetic. -/
def positionBonus (index total : Nat) : Nat :=
  if index * 5 < total then 2
  else if index * 5 > total * 4 then 2
  else if index * 5 > total * 2 ∧ index * 5 < total * 3 then 1
  else 0

/-- JavaScript sentence.split(s single space).length. -/
def wordCount (s : JStr) : Nat := (splitOnChar (fun c => c = ' ') s).length

/-- Length bonus of the scoring loop: word count between 8 and 25. -/
def lengthBonus (sentence : JStr) : Nat :=
  if 8 ≤ wordCount sentence ∧ wordCount sentence ≤ 25 then 1 else 0

/-- Total score of one sentence (keyword factor, position bonus, length
bonus, accumulated in source order). -/
def scoreSentence (sentence : JStr) (index total : Nat) : Nat :=
  keywordMatches sentence * 3 + positionBonus index total + lengthBonus sentence

/-- ScoredSentence record of the source: sentence text, score, index in the
filtered sentence list. -/
structure Scored where
  sentence : JStr
  score : Nat
  index : Nat
deriving DecidableEq, Repr

/-- scoredSentences = sentences.map((sentence, index) => ...). -/
def scoredSentences (sentences : List JStr) : List Scored :=
  sentences.mapIdx (fun i s => ⟨s, scoreSentence s i sentences.length, i⟩)

/-- The comparator of scoredSentences.sort: higher score first, ties broken
by lower original index. -/
def scoredLE (a b : Scored) : Prop :=
  b.score < a.score ∨ (a.score = b.score ∧ a.index ≤ b.index)

instance : DecidableRel scoredLE := fun a b =>
  inferInstanceAs (Decidable (b.score < a.score ∨ (a.score = b.score ∧ a.index ≤ b.index)))

instance : IsTotal Scored scoredLE := ⟨fun a b => by unfold scoredLE; omega⟩

instance : IsTrans Scored scoredLE := ⟨fun a b c => by unfold scoredLE; omega⟩

/-- The sort call of the source.  The comparator is a strict total order on
the scored records of one call (indices are distinct), so the sorted
permutation is unique and insertion sort computes exactly what the
JavaScript sort returns. -/
def sortScored (l : List Scored) : List Scored := List.insertionSort scoredLE l

/-- The tooClose test of the selection loop: some already used index is at
distance less than 3. -/
def tooCloseTo (i : Nat) (used : List Nat) : Bool :=
  used.any (fun p => Nat.dist i p < 3)

/-- The selection loop of generateKeyPointsSummary: walk the sorted list,
keep an item when it is not too close to a previously kept index and fewer
than 5 items are kept so far. -/
def greedySelect : List Scored → List Nat → Nat → List Scored
  | [], _, _ => []
  | item :: rest, used, cnt =>
    if tooCloseTo item.index used = false ∧ cnt < 5 then
      item :: greedySelect rest (item.index :: used) (cnt + 1)
    else
      greedySelect rest used cnt

/-- The duplicate-removing filter (idx, pos, arr) => arr.indexOf(idx) === pos,
which keeps the first occurrence of every value. -/
def dedupFirstAux : List Nat → List Nat → List Nat
  | [], _ => []
  | x :: xs, seen =>
    if x ∈ seen then dedupFirstAux xs seen
    else x :: dedupFirstAux xs (x :: seen)

/-- The evenly spread fallback indices: first, 25 percent, 50 percent,
75 percent, last, deduplicated.  The three ratios are exact in binary
floating point, so Nat division is the exact value of Math.floor here.
totalSentences is at least 1 on the path where this runs, so the Nat
subtraction in the last entry is the JavaScript value. -/
def fallbackIndices (total : Nat) : List Nat :=
  dedupFirstAux [0, total / 4, total / 2, total * 3 / 4, total - 1] []

/-- The fallback selection: indices mapped to sentences, undefined and empty
entries dropped (the filter(Boolean) of the source). -/
def fallbackSpread (sentences : List JStr) : List JStr :=
  ((fallbackIndices sentences.length).filterMap (fun i => sentences[i]?)).filter
    (fun s => !s.isEmpty)

/-- The rendered numbered list of generateKeyPointsSummary. -/
def renderKeyPoints (selected : List JStr) : JStr :=
  "## Key Points\n\n".data ++
    List.intercalate "\n".data
      (selected.mapIdx (fun i s => (toString (i + 1)).data ++ ". ".data ++ s))

/-- generateKeyPointsSummary of transcript-summarizer.js.  The falsiness
tests on the two string arguments are emptiness tests. -/
def generateKeyPointsSummary (transcript videoTitle : JStr) : JStr :=
  if transcript.isEmpty then "Unable to generate summary: invalid transcript".data
  else if videoTitle.isEmpty then "Unable to generate summary: invalid video title".data
  else
    let sentences := filteredSentences transcript
    if sentences.length = 0 then
      "Unable to extract meaningful sentences from transcript.".data
    else
      let selected := greedySelect (sortScored (scoredSentences sentences)) [] 0
      let selected2 :=
        if selected.length = 0 then fallbackSpread sentences
        else selected.map Scored.sentence
      if selected2.length = 0 then
        trimC (List.intercalate ". ".data (sentences.take 3)) ++ ".".data
      else
        renderKeyPoints selected2

/-- The adaptive target word budget of generateDetailedSummary.  The source
computes Math.floor of length times 0.4, 0.3 and 0.2; for every realistic
length the float product never crosses an integer boundary, so the values
are the exact Nat divisions below. -/
def detailedTarget (totalWords : Nat) : Nat :=
  if totalWords < 500 then totalWords * 2 / 5
  else if totalWords < 2000 then min 400 (totalWords * 3 / 10)
  else min 500 (totalWords / 5)

/-- Sentence extraction of generateDetailedSummary: split on periods only,
keep pieces whose trimmed length exceeds 10 (the pieces themselves stay
untrimmed, as in the source). -/
def detailedSentencesOf (transcript : JStr) : List JStr :=
  (splitOnChar (fun c => c = '.') transcript).filter
    (fun s => 10 < (trimC s).length)

/-- The beginning / middle / end window draft of generateDetailedSummary.
ceil of n times 0.2 is (n + 4) / 5, floor of n times 0.4 is n * 2 / 5 and
ceil of n times 0.3 is (n * 3 + 9) / 10 in exact arithmetic; slice(-k) takes
the last k elements, and k = 0 only when the list is empty. -/
def detailedDraft (transcript : JStr) : JStr :=
  let sentences := detailedSentencesOf transcript
  let n := sentences.length
  let beginning := sentences.take ((n + 4) / 5)
  let middleStart := n * 2 / 5
  let middle := (sentences.drop middleStart).take ((n * 3 + 9) / 10)
  let endPart := sentences.drop (n - (n + 4) / 5)
  let summarySentences :=
    ((beginning ++ middle ++ endPart).map trimC).filter (fun s => 0 < s.length)
  trimC (List.intercalate ". ".data summarySentences)

/-- The truncation step of generateDetailedSummary: keep the first target
words and append three dots when the result does not end with a period. -/
def truncateDraft (draft : JStr) (target : Nat) : JStr :=
  let truncated :=
    List.intercalate " ".data ((splitOnChar (fun c => c = ' ') draft).take target)
  if endsWithC truncated ".".data then truncated else truncated ++ "...".data

/-- generateDetailedSummary of transcript-summarizer.js. -/
def generateDetailedSummary (transcript videoTitle : JStr) : JStr :=
  if transcript.isEmpty then "Unable to generate summary: invalid transcript".data
  else if videoTitle.isEmpty then "Unable to generate summary: invalid video title".data
  else
    let totalWords := wordCount transcript
    let target := detailedTarget totalWords
    let draft := detailedDraft transcript
    let summary := if draft.length > target * 5 then truncateDraft draft target else draft
    "## Summary\n\n".data ++ summary

/-- First guidance keyword group of generateGuidedSummary. -/
def guidanceGroup1 (gl : JStr) : Bool :=
  containsSub gl "brief".data || containsSub gl "short".data || containsSub gl "overview".data

/-- Second guidance keyword group of generateGuidedSummary. -/
def guidanceGroup2 (gl : JStr) : Bool :=
  containsSub gl "detailed".data || containsSub gl "comprehensive".data ||
    containsSub gl "analysis".data

/-- Third guidance keyword group of generateGuidedSummary. -/
def guidanceGroup3 (gl : JStr) : Bool :=
  containsSub gl "key".data || containsSub gl "points".data || containsSub gl "bullet".data

/-- generateGuidedSummary of transcript-summarizer.js. -/
def generateGuidedSummary (transcript videoTitle guidance : JStr) : JStr :=
  if transcript.isEmpty then "Unable to generate summary: invalid transcript".data
  else if videoTitle.isEmpty then "Unable to generate summary: invalid video title".data
  else if guidance.isEmpty then "Unable to generate summary: invalid guidance".data
  else
    let gl := lowerC guidance
    if guidanceGroup1 gl then generateKeyPointsSummary transcript videoTitle
    else if guidanceGroup2 gl then generateDetailedSummary transcript videoTitle
    else if guidanceGroup3 gl then generateKeyPointsSummary transcript videoTitle
    else
      "## Summary (Based on: ".data ++ guidance ++ ")\n\n".data ++
        generateDetailedSummary transcript videoTitle

/-- The result record built by execute (serialized with JSON.stringify at the
boundary; the claims are about the record fields). -/
structure SummaryResult where
  summary : JStr
  summary_type : JStr
deriving DecidableEq, Repr

def noTranscriptMarker : JStr := "No transcript available for this video".data

def unavailableMessage : JStr :=
  ("No transcript available for this video. The video may not have captions " ++
   "or they may not be accessible through the public API.").data

/-- JavaScript truthiness of an optional string argument: present and
non-empty. -/
def optTruthy : Option JStr → Bool
  | none => false
  | some s => !s.isEmpty

/-- execute of transcript-summarizer.js.  A missing argument is none; a
missing video_title reaches the generators as undefined, which their
falsiness guards treat exactly like the empty string, so getD [] is
faithful. -/
def execute (transcript video_title summary_guidance : Option JStr) : SummaryResult :=
  if !optTruthy transcript || (trimC (transcript.getD [])).isEmpty
      || containsSub (transcript.getD []) noTranscriptMarker then
    ⟨unavailableMessage, "unavailable".data⟩
  else
    let t := transcript.getD []
    let title := video_title.getD []
    if optTruthy summary_guidance then
      ⟨generateGuidedSummary t title (summary_guidance.getD []), "guided".data⟩
    else
      ⟨generateKeyPointsSummary t title, "key_points".data⟩

/-! Concrete inputs used by witnesses and counterexamples. -/

/-- A short valid transcript: one retained sentence, no marker phrase. -/
def c1transcript : JStr :=
  "this transcript has plenty of content to summarize.".data

/-- Four retained sentences; the last one scores 10 (three keyword hits and
the length bonus) while the first scores 2 (opening bonus), so the selection
loop emits index 3 before index 0. -/
def c8transcript : JStr :=
  ("aaaa bbbb cccc. dddd eeee ffff gggg. hhhh iiii jjjj kkkk. " ++
   "this is the important key main point okay.").data

/-! Helper lemmas. -/

lemma isEmpty_eq_false_of_ne_nil {l : JStr} (h : l ≠ []) : l.isEmpty = false := by
  cases l with
  | nil => exact absurd rfl h
  | cons c cs => rfl

lemma greedySelect_length_le (l : List Scored) :
    ∀ used cnt, (greedySelect l used cnt).length ≤ 5 - cnt := by
  induction l with
  | nil => intro used cnt; simp [greedySelect]
  | cons item rest ih =>
    intro used cnt
    simp only [greedySelect]
    split
    case isTrue h =>
      have := ih (item.index :: used) (cnt + 1)
      simp only [List.length_cons]
      omega
    case isFalse h =>
      exact ih used cnt

lemma greedySelect_sublist (l : List Scored) :
    ∀ used cnt, (greedySelect l used cnt).Sublist l := by
  induction l with
  | nil => intro used cnt; simp [greedySelect]
  | cons item rest ih =>
    intro used cnt
    simp only [greedySelect]
    split
    · exact (ih _ _).cons₂ item
    · exact (ih _ _).cons item

lemma tooCloseTo_eq_false_iff (i : Nat) (used : List Nat) :
    tooCloseTo i used = false ↔ ∀ p ∈ used, 3 ≤ Nat.dist i p := by
  simp [tooCloseTo, Nat.not_lt]

lemma greedySelect_spread (l : List Scored) :
    ∀ used cnt,
      (∀ a ∈ greedySelect l used cnt, ∀ p ∈ used, 3 ≤ Nat.dist a.index p) ∧
      (greedySelect l used cnt).Pairwise (fun a b => 3 ≤ Nat.dist a.index b.index) := by
  induction l with
  | nil => intro used cnt; simp [greedySelect]
  | cons item rest ih =>
    intro used cnt
    simp only [greedySelect]
    split
    case isTrue h =>
      have hused := (tooCloseTo_eq_false_iff item.index used).mp h.1
      obtain ⟨ih1, ih2⟩ := ih (item.index :: used) (cnt + 1)
      constructor
      · intro a ha p hp
        rcases List.mem_cons.mp ha with rfl | ha'
        · exact hused p hp
        · exact ih1 a ha' p (List.mem_cons_of_mem _ hp)
      · refine List.pairwise_cons.mpr ⟨?_, ih2⟩
        intro b hb
        have := ih1 b hb item.index (List.mem_cons_self _ _)
        rw [Nat.dist_comm]
        exact this
    case isFalse h =>
      exact ih used cnt

lemma dedupFirstAux_length_le (l : List Nat) :
    ∀ seen, (dedupFirstAux l seen).length ≤ l.length := by
  induction l with
  | nil => intro seen; simp [dedupFirstAux]
  | cons x xs ih =>
    intro seen
    simp only [dedupFirstAux]
    split
    · exact le_trans (ih seen) (by simp)
    · simpa using ih (x :: seen)

lemma execute_passes (t : JStr) (title g : Option JStr)
    (ht : trimC t ≠ []) (hm : containsSub t noTranscriptMarker = false) :
    execute (some t) title g =
      if optTruthy g then
        ⟨generateGuidedSummary t (title.getD []) (g.getD []), "guided".data⟩
      else
        ⟨generateKeyPointsSummary t (title.getD []), "key_points".data⟩ := by
  have ht0 : t ≠ [] := fun h => ht (by rw [h]; rfl)
  simp [execute, optTruthy, isEmpty_eq_false_of_ne_nil ht0, isEmpty_eq_false_of_ne_nil ht, hm]

lemma guidanceGroup1_ne_nil {g : JStr} (h : guidanceGroup1 (lowerC g) = true) : g ≠ [] := by
  intro hg
  subst hg
  simp [guidanceGroup1, lowerC, containsSub] at h

lemma guidanceGroup2_ne_nil {g : JStr} (h : guidanceGroup2 (lowerC g) = true) : g ≠ [] := by
  intro hg
  subst hg
  simp [guidanceGroup2, lowerC, containsSub] at h

lemma guidanceGroup3_ne_nil {g : JStr} (h : guidanceGroup3 (lowerC g) = true) : g ≠ [] := by
  intro hg
  subst hg
  simp [guidanceGroup3, lowerC, containsSub] at h

lemma guided_dispatch1 (t v g : JStr) (h : guidanceGroup1 (lowerC g) = true) :
    generateGuidedSummary t v g = generateKeyPointsSummary t v := by
  have hg : g.isEmpty = false := isEmpty_eq_false_of_ne_nil (guidanceGroup1_ne_nil h)
  by_cases ht : t.isEmpty = true
  · simp [generateGuidedSummary, generateKeyPointsSummary, ht]
  · by_cases hv : v.isEmpty = true
    · simp [generateGuidedSummary, generateKeyPointsSummary, ht, hv]
    · simp only [generateGuidedSummary, ht, hv, hg, h, Bool.false_eq_true, if_false, if_true]

lemma guided_dispatch2 (t v g : JStr) (h1 : guidanceGroup1 (lowerC g) = false)
    (h2 : guidanceGroup2 (lowerC g) = true) :
    generateGuidedSummary t v g = generateDetailedSummary t v := by
  have hg : g.isEmpty = false := isEmpty_eq_false_of_ne_nil (guidanceGroup2_ne_nil h2)
  by_cases ht : t.isEmpty = true
  · simp [generateGuidedSummary, generateDetailedSummary, ht]
  · by_cases hv : v.isEmpty = true
    · simp [generateGuidedSummary, generateDetailedSummary, ht, hv]
    · simp only [generateGuidedSummary, ht, hv, hg, h1, h2, Bool.false_eq_true, if_false, if_true]

lemma guided_dispatch3 (t v g : JStr) (h1 : guidanceGroup1 (lowerC g) = false)
    (h2 : guidanceGroup2 (lowerC g) = false) (h3 : guidanceGroup3 (lowerC g) = true) :
    generateGuidedSummary t v g = generateKeyPointsSummary t v := by
  have hg : g.isEmpty = false := isEmpty_eq_false_of_ne_nil (guidanceGroup3_ne_nil h3)
  by_cases ht : t.isEmpty = true
  · simp [generateGuidedSummary, generateKeyPointsSummary, ht]
  · by_cases hv : v.isEmpty = true
    · simp [generateGuidedSummary, generateKeyPointsSummary, ht, hv]
    · simp only [generateGuidedSummary, ht, hv, hg, h1, h2, h3, Bool.false_eq_true, if_false,
        if_true]

lemma nat_div_lt_frac (i n a b : Nat) (hn : 0 < n) (hb : 0 < b) :
    ((i : ℚ) / (n : ℚ) < (a : ℚ) / (b : ℚ)) ↔ i * b < a * n := by
  rw [div_lt_div_iff₀ (by exact_mod_cast hn) (by exact_mod_cast hb)]
  constructor
  · intro h; exact_mod_cast h
  · intro h; exact_mod_cast h

lemma frac_lt_nat_div (i n a b : Nat) (hn : 0 < n) (hb : 0 < b) :
    ((a : ℚ) / (b : ℚ) < (i : ℚ) / (n : ℚ)) ↔ a * n < i * b := by
  rw [div_lt_div_iff₀ (by exact_mod_cast hb) (by exact_mod_cast hn)]
  constructor
  · intro h; exact_mod_cast h
  · intro h; exact_mod_cast h

lemma positionBonus_rat (i n : Nat) (hn : 0 < n) :
    positionBonus i n =
      (if (i : ℚ) / (n : ℚ) < 0.2 then 2
       else if (i : ℚ) / (n : ℚ) > 0.8 then 2
       else if 0.4 < (i : ℚ) / (n : ℚ) ∧ (i : ℚ) / (n : ℚ) < 0.6 then 1
       else 0) := by
  have h02 : ((i : ℚ) / (n : ℚ) < 0.2) ↔ i * 5 < 1 * n := by
    rw [show (0.2 : ℚ) = ((1 : Nat) : ℚ) / ((5 : Nat) : ℚ) by norm_num]
    exact nat_div_lt_frac i n 1 5 hn (by norm_num)
  have h08 : ((i : ℚ) / (n : ℚ) > 0.8) ↔ 4 * n < i * 5 := by
    rw [show (0.8 : ℚ) = ((4 : Nat) : ℚ) / ((5 : Nat) : ℚ) by norm_num]
    exact frac_lt_nat_div i n 4 5 hn (by norm_num)
  have h04 : (0.4 < (i : ℚ) / (n : ℚ)) ↔ 2 * n < i * 5 := by
    rw [show (0.4 : ℚ) = ((2 : Nat) : ℚ) / ((5 : Nat) : ℚ) by norm_num]
    exact frac_lt_nat_div i n 2 5 hn (by norm_num)
  have h06 : ((i : ℚ) / (n : ℚ) < 0.6) ↔ i * 5 < 3 * n := by
    rw [show (0.6 : ℚ) = ((3 : Nat) : ℚ) / ((5 : Nat) : ℚ) by norm_num]
    exact nat_div_lt_frac i n 3 5 hn (by norm_num)
  simp only [positionBonus, gt_iff_lt, h02, h08, h04, h06]
  split_ifs <;> omega

/-! Claim theorems. -/

/-- C3: whenever the transcript argument is missing, empty after trimming,
or contains the literal phrase "No transcript available for this video",
execute returns the record with the fixed unavailable message and
summary_type "unavailable", regardless of the title and guidance arguments
(and, being a total function, raises nothing). -/
theorem C3_unavailable (transcript video_title summary_guidance : Option JStr)
    (h : transcript = none ∨ ∃ t, transcript = some t ∧
        (trimC t = [] ∨ containsSub t noTranscriptMarker = true)) :
    execute transcript video_title summary_guidance =
      ⟨unavailableMessage, "unavailable".data⟩ := by
  rcases h with rfl | ⟨t, rfl, h | h⟩
  · rfl
  · simp [execute, h]
  · simp [execute, h]

theorem C3_unavailable_witness :
    execute (some "".data) (some "X".data) none =
      ⟨unavailableMessage, "unavailable".data⟩ :=
  C3_unavailable (some "".data) (some "X".data) none
    (Or.inr ⟨"".data, rfl, Or.inl rfl⟩)

/-- C4: for every transcript, at most 5 sentences are selected, on the
greedy path, on the evenly spread fallback path, and on the
first-3-sentences fallback path alike. -/
theorem C4_at_most_five (transcript : JStr) :
    (greedySelect (sortScored (scoredSentences (filteredSentences transcript))) [] 0).length ≤ 5 ∧
    (fallbackSpread (filteredSentences transcript)).length ≤ 5 ∧
    ((filteredSentences transcript).take 3).length ≤ 5 := by
  refine ⟨?_, ?_, ?_⟩
  · simpa using greedySelect_length_le _ [] 0
  · calc (fallbackSpread (filteredSentences transcript)).length
        ≤ ((fallbackIndices (filteredSentences transcript).length).filterMap
            (fun i => (filteredSentences transcript)[i]?)).length :=
          List.length_filter_le _ _
      _ ≤ (fallbackIndices (filteredSentences transcript).length).length :=
          List.length_filterMap_le _ _
      _ ≤ 5 := le_trans (dedupFirstAux_length_le _ _) (by simp)
  · exact le_trans (List.length_take_le _ _) (by omega)

/-- C5: the selection loop never keeps two sentences whose original indices
are within 3 of each other (distance at least 3 holds pairwise on the
greedy selection, unconditionally). -/
theorem C5_diversity (transcript : JStr) :
    (greedySelect (sortScored (scoredSentences (filteredSentences transcript))) [] 0).Pairwise
      (fun a b => 3 ≤ Nat.dist a.index b.index) :=
  (greedySelect_spread _ [] 0).2

/-- C6: for a retained sentence at index i of n, the score is 3 times the
number of matching keyword phrases, plus the positional bonus stated with
the exact ratio i / n, plus the length bonus for 8 to 25 words. -/
theorem C6_score_formula (s : JStr) (i n : Nat) (hn : i < n) :
    scoreSentence s i n =
      3 * (keyPointIndicators.filter (fun ind => containsSub (lowerC s) ind)).length +
      (if (i : ℚ) / (n : ℚ) < 0.2 then 2
       else if (i : ℚ) / (n : ℚ) > 0.8 then 2
       else if 0.4 < (i : ℚ) / (n : ℚ) ∧ (i : ℚ) / (n : ℚ) < 0.6 then 1
       else 0) +
      (if 8 ≤ wordCount s ∧ wordCount s ≤ 25 then 1 else 0) := by
  unfold scoreSentence keywordMatches lengthBonus
  rw [← positionBonus_rat i n (by omega)]
  omega

theorem C6_score_formula_witness :
    0 < 1 ∧
    scoreSentence "x".data 0 1 =
      3 * (keyPointIndicators.filter (fun ind => containsSub (lowerC "x".data) ind)).length +
      (if ((0 : Nat) : ℚ) / ((1 : Nat) : ℚ) < 0.2 then 2
       else if ((0 : Nat) : ℚ) / ((1 : Nat) : ℚ) > 0.8 then 2
       else if 0.4 < ((0 : Nat) : ℚ) / ((1 : Nat) : ℚ) ∧
           ((0 : Nat) : ℚ) / ((1 : Nat) : ℚ) < 0.6 then 1
       else 0) +
      (if 8 ≤ wordCount "x".data ∧ wordCount "x".data ≤ 25 then 1 else 0) :=
  ⟨Nat.zero_lt_one, C6_score_formula "x".data 0 1 Nat.zero_lt_one⟩

/-- C7: the three guidance keyword groups are tested on the lowercased
guidance in the fixed source order, the first matching group fixes the
summary body, and the literal guidance "short but comprehensive" yields the
key-points body because group 1 wins over group 2. -/
theorem C7_guidance_precedence (transcript videoTitle guidance : JStr) :
    (guidanceGroup1 (lowerC guidance) = true →
      generateGuidedSummary transcript videoTitle guidance =
        generateKeyPointsSummary transcript videoTitle) ∧
    (guidanceGroup1 (lowerC guidance) = false → guidanceGroup2 (lowerC guidance) = true →
      generateGuidedSummary transcript videoTitle guidance =
        generateDetailedSummary transcript videoTitle) ∧
    (guidanceGroup1 (lowerC guidance) = false → guidanceGroup2 (lowerC guidance) = false →
      guidanceGroup3 (lowerC guidance) = true →
      generateGuidedSummary transcript videoTitle guidance =
        generateKeyPointsSummary transcript videoTitle) ∧
    generateGuidedSummary transcript videoTitle "short but comprehensive".data =
      generateKeyPointsSummary transcript videoTitle :=
  ⟨guided_dispatch1 transcript videoTitle guidance,
   guided_dispatch2 transcript videoTitle guidance,
   guided_dispatch3 transcript videoTitle guidance,
   guided_dispatch1 transcript videoTitle "short but comprehensive".data (by decide)⟩

theorem C7_guidance_precedence_witness :
    guidanceGroup1 (lowerC "brief please".data) = true ∧
    generateGuidedSummary c1transcript "T".data "brief please".data =
      generateKeyPointsSummary c1transcript "T".data :=
  ⟨by decide, (C7_guidance_precedence c1transcript "T".data "brief please".data).1 (by decide)⟩

/-- C9: the detailed target word budget follows the three size bands with
exact floored percentages, and the joined draft is truncated to the first
target words, with three dots appended exactly when the truncation does not
end in a period, precisely when the draft is longer than target times 5
characters. -/
theorem C9_detailed_budget (transcript videoTitle : JStr)
    (ht : transcript ≠ []) (hv : videoTitle ≠ []) :
    detailedTarget (wordCount transcript) =
      (if wordCount transcript < 500 then wordCount transcript * 2 / 5
       else if wordCount transcript < 2000 then min 400 (wordCount transcript * 3 / 10)
       else min 500 (wordCount transcript / 5)) ∧
    generateDetailedSummary transcript videoTitle =
      "## Summary\n\n".data ++
        (if (detailedDraft transcript).length > detailedTarget (wordCount transcript) * 5 then
          truncateDraft (detailedDraft transcript) (detailedTarget (wordCount transcript))
        else detailedDraft transcript) := by
  refine ⟨rfl, ?_⟩
  simp only [generateDetailedSummary, isEmpty_eq_false_of_ne_nil ht,
    isEmpty_eq_false_of_ne_nil hv, Bool.false_eq_true, if_false]

theorem C9_detailed_budget_witness :
    detailedTarget (wordCount c1transcript) =
      (if wordCount c1transcript < 500 then wordCount c1transcript * 2 / 5
       else if wordCount c1transcript < 2000 then min 400 (wordCount c1transcript * 3 / 10)
       else min 500 (wordCount c1transcript / 5)) ∧
    generateDetailedSummary c1transcript "T".data =
      "## Summary\n\n".data ++
        (if (detailedDraft c1transcript).length > detailedTarget (wordCount c1transcript) * 5 then
          truncateDraft (detailedDraft c1transcript) (detailedTarget (wordCount c1transcript))
        else detailedDraft c1transcript) :=
  C9_detailed_budget c1transcript "T".data (by decide) (by decide)

/-- C10: when the length filter retains at least one sentence, the greedy
pass selects at least one sentence (the head of the sorted list is always
accepted), and generateKeyPointsSummary renders the greedy selection, so
neither fallback branch runs. -/
theorem C10_greedy_reached (transcript videoTitle : JStr)
    (ht : transcript ≠ []) (hv : videoTitle ≠ [])
    (hs : filteredSentences transcript ≠ []) :
    greedySelect (sortScored (scoredSentences (filteredSentences transcript))) [] 0 ≠ [] ∧
    generateKeyPointsSummary transcript videoTitle =
      renderKeyPoints
        ((greedySelect (sortScored (scoredSentences (filteredSentences transcript))) [] 0).map
          Scored.sentence) := by
  have hlen : (sortScored (scoredSentences (filteredSentences transcript))).length =
      (filteredSentences transcript).length := by
    unfold sortScored
    rw [(List.perm_insertionSort scoredLE _).length_eq]
    simp [scoredSentences]
  have hpos : 0 < (filteredSentences transcript).length := List.length_pos.mpr hs
  obtain ⟨x, xs, hx⟩ : ∃ x xs,
      sortScored (scoredSentences (filteredSentences transcript)) = x :: xs := by
    cases hsort : sortScored (scoredSentences (filteredSentences transcript)) with
    | nil => rw [hsort] at hlen; simp at hlen; omega
    | cons x xs => exact ⟨x, xs, rfl⟩
  have hg : greedySelect (sortScored (scoredSentences (filteredSentences transcript))) [] 0 =
      x :: greedySelect xs [x.index] 1 := by
    rw [hx]
    simp [greedySelect, tooCloseTo]
  have hne : greedySelect (sortScored (scoredSentences (filteredSentences transcript))) [] 0 ≠ [] := by
    rw [hg]; exact List.cons_ne_nil _ _
  refine ⟨hne, ?_⟩
  have hsel : ¬ (greedySelect (sortScored (scoredSentences (filteredSentences transcript)))
      [] 0).length = 0 := by
    rw [hg]; simp
  simp only [generateKeyPointsSummary, isEmpty_eq_false_of_ne_nil ht,
    isEmpty_eq_false_of_ne_nil hv, Bool.false_eq_true, if_false]
  rw [if_neg (by omega : ¬ (filteredSentences transcript).length = 0)]
  rw [if_neg hsel]
  rw [if_neg (by simpa using hsel)]

theorem C10_greedy_reached_witness :
    c1transcript ≠ [] ∧ filteredSentences c1transcript ≠ [] ∧
    (greedySelect (sortScored (scoredSentences (filteredSentences c1transcript))) [] 0 ≠ [] ∧
     generateKeyPointsSummary c1transcript "T".data =
       renderKeyPoints
         ((greedySelect (sortScored (scoredSentences (filteredSentences c1transcript))) [] 0).map
           Scored.sentence)) :=
  ⟨by decide, by decide, C10_greedy_reached c1transcript "T".data (by decide) (by decide) (by decide)⟩

/-- C1 counterexample: with a valid transcript and title and the literal
guidance "detailed analysis please", execute labels the record "guided",
not "detailed". -/
theorem C1_counterexample :
    (execute (some c1transcript) (some "T".data)
        (some "detailed analysis please".data)).summary_type = "guided".data ∧
    "guided".data ≠ "detailed".data := by
  exact ⟨by decide, by decide⟩

/-- C1 amended: for every transcript that passes the emptiness and marker
check and every non-empty title, guidance "detailed analysis please"
produces the detailed summary body, but the record is labeled "guided"
(the label "detailed" is never emitted by execute). -/
theorem C1_guided_type (t title : JStr)
    (ht : trimC t ≠ []) (hm : containsSub t noTranscriptMarker = false) :
    execute (some t) (some title) (some "detailed analysis please".data) =
      ⟨generateDetailedSummary t title, "guided".data⟩ := by
  rw [execute_passes t (some title) (some "detailed analysis please".data) ht hm]
  rw [if_pos (by decide : optTruthy (some "detailed analysis please".data) = true)]
  rw [Option.getD_some, Option.getD_some]
  rw [guided_dispatch2 t title "detailed analysis please".data (by decide) (by decide)]

theorem C1_guided_type_witness :
    execute (some c1transcript) (some "T".data) (some "detailed analysis please".data) =
      ⟨generateDetailedSummary c1transcript "T".data, "guided".data⟩ :=
  C1_guided_type c1transcript "T".data (by decide) (by decide)

/-- C2 counterexample: with a valid transcript and an empty title, execute
returns summary_type "key_points" carrying the invalid-video-title message,
not summary_type "unavailable". -/
theorem C2_counterexample :
    (execute (some c1transcript) (some []) none).summary_type = "key_points".data ∧
    "key_points".data ≠ "unavailable".data ∧
    (execute (some c1transcript) (some []) none).summary =
      "Unable to generate summary: invalid video title".data := by
  exact ⟨by decide, by decide, by decide⟩

/-- C2 amended: for every transcript that passes the emptiness and marker
check, a missing or empty title makes execute return the record whose
summary is the invalid-video-title message and whose summary_type is
"key_points" (the default path label), not "unavailable". -/
theorem C2_invalid_title_type (t : JStr) (title : Option JStr)
    (ht : trimC t ≠ []) (hm : containsSub t noTranscriptMarker = false)
    (hv : title = none ∨ title = some []) :
    execute (some t) title none =
      ⟨"Unable to generate summary: invalid video title".data, "key_points".data⟩ := by
  rw [execute_passes t title none ht hm]
  rw [if_neg (by decide : ¬ optTruthy none = true)]
  have htitle : title.getD [] = [] := by rcases hv with rfl | rfl <;> rfl
  rw [htitle]
  have ht0 : t ≠ [] := fun h => ht (by rw [h]; rfl)
  have : generateKeyPointsSummary t [] =
      "Unable to generate summary: invalid video title".data := by
    simp [generateKeyPointsSummary, isEmpty_eq_false_of_ne_nil ht0]
  rw [this]

theorem C2_invalid_title_type_witness :
    execute (some c1transcript) (some []) none =
      ⟨"Unable to generate summary: invalid video title".data, "key_points".data⟩ :=
  C2_invalid_title_type c1transcript (some []) (by decide) (by decide) (Or.inr rfl)

/-- C8 counterexample: on c8transcript the selection loop keeps original
indices in the order [3, 0], which is not ascending, and the rendered list
shows sentence 3 before sentence 0: sort-then-select does reorder the
emitted list relative to transcript order. -/
theorem C8_counterexample :
    ((greedySelect (sortScored (scoredSentences (filteredSentences c8transcript))) [] 0).map
        Scored.index) = [3, 0] ∧
    ¬ ((greedySelect (sortScored (scoredSentences (filteredSentences c8transcript))) [] 0).map
        Scored.index).Pairwise (· ≤ ·) ∧
    generateKeyPointsSummary c8transcript "Talk".data =
      ("## Key Points\n\n1. this is the important key main point okay\n" ++
       "2. aaaa bbbb cccc").data := by
  refine ⟨by decide, ?_, by decide⟩
  intro hpair
  rw [show ((greedySelect (sortScored (scoredSentences (filteredSentences c8transcript))) [] 0).map
      Scored.index) = [3, 0] from by decide] at hpair
  have := (List.pairwise_cons.mp hpair).1 0 (by simp)
  omega

/-- C8 amended: the emitted list is in selection order, which is descending
score with ties broken by ascending original index (the order of the sorted
list, of which the selection is a sublist); for tied or dominated scores
this can differ from ascending transcript order. -/
theorem C8_selection_order (transcript : JStr) :
    (greedySelect (sortScored (scoredSentences (filteredSentences transcript))) [] 0).Pairwise
      scoredLE :=
  List.Pairwise.sublist (greedySelect_sublist _ [] 0)
    (List.sorted_insertionSort scoredLE (scoredSentences (filteredSentences transcript)))

end TS
